import Mathlib

/-!
pdf2svg: page selection and batch conversion.

A shallow embedding of `src/pdf2svg.c` (`getAbsoluteFileName`, `convertPage`,
`main`).  Calls into glib, poppler, cairo and the C library are taken from a
`World` record; every call the program makes to poppler / cairo / stdio is
recorded, in order, in a trace of `Event`s.

Modelling conventions

* `int` / `gint` values are `Int`; every `int` addition or subtraction the
  program performs is wrapped to 32 bits with `wrapInt`.
* `size_t` values are `Nat`; every `size_t` result is reduced modulo `2^64`
  with `toSizeT`.
* C strings are `List Char`, one element per C `char`.
* `double` values are only passed from poppler to cairo, never computed on;
  they are carried as their 64-bit pattern.
* The two loops of `main` take fuel; `none` / `outOfFuel` means the fuel ran
  out before the loop ended.
* `malloc` / `realloc` may return `NULL` (`World.allocOk`), in which case the
  `assert` that follows ends the run.
-/

namespace Pdf2svg

/-! ## Machine integers and C strings -/

/-- A C string: the characters before the terminating NUL. -/
abbrev CString := List Char

/-- Largest value of a C `int` (32 bits). -/
def INT_MAX : Int := 2147483647

/-- Reduction of a mathematical integer to a 32-bit two's-complement `int`. -/
def wrapInt (x : Int) : Int := (x + 2147483648) % 4294967296 - 2147483648

/-- Conversion of an integer to `size_t` (64 bits, unsigned). -/
def toSizeT (x : Int) : Nat := (x % 18446744073709551616).toNat

/-- A C `double`, carried as its bit pattern. -/
structure CDouble where
  bits : Nat
  deriving DecidableEq, Repr

/-! ## Handles of the external engines -/

/-- A `PopplerPage *` that is not `NULL`. -/
structure PopplerPage where
  handle : Nat
  deriving DecidableEq, Repr

/-- A `cairo_surface_t *`; cairo never returns `NULL`, an error is reported
in the object's status (`0` is `CAIRO_STATUS_SUCCESS`). -/
structure CairoSurface where
  handle : Nat
  status : Nat
  deriving DecidableEq, Repr

/-- A `cairo_t *`; as for surfaces, an error is reported in the status. -/
structure CairoContext where
  handle : Nat
  status : Nat
  deriving DecidableEq, Repr

/-- An opened `PopplerDocument *`. -/
structure PopplerDocument where
  /-- Result of `poppler_document_get_n_pages`. -/
  nPages : Int
  /-- Result of `poppler_document_get_page`; `none` is `NULL`. -/
  getPage : Int → Option PopplerPage
  /-- Result of `poppler_document_get_page_by_label`; `none` is `NULL`. -/
  getPageByLabel : CString → Option PopplerPage

/-- Everything outside the program: glib, poppler, cairo, the C library. -/
structure World where
  /-- Result of `g_path_is_absolute`. -/
  pathIsAbsolute : CString → Bool
  /-- Result of `g_get_current_dir`. -/
  currentDir : CString
  /-- Result of `g_build_filename (dir, name, NULL)`. -/
  buildFilename : CString → CString → CString
  /-- Result of `g_filename_to_uri`. -/
  filenameToUri : CString → CString
  /-- Result of `poppler_document_new_from_file`; `none` is `NULL`. -/
  documentNewFromFile : CString → Option PopplerDocument
  /-- Result of `poppler_page_get_size`: width and height. -/
  pageGetSize : PopplerPage → CDouble × CDouble
  /-- Result of `cairo_svg_surface_create`. -/
  svgSurfaceCreate : CString → CDouble → CDouble → CairoSurface
  /-- Result of `cairo_create`. -/
  cairoCreate : CairoSurface → CairoContext
  /-- Status of the drawing context after `poppler_page_render_for_printing`
  and `cairo_show_page` (`0` is success). -/
  renderStatus : PopplerPage → CairoContext → Nat
  /-- The complete text the `printf` family produces for a format string and
  one `int` argument. -/
  formatInt : CString → Int → CString
  /-- Whether `malloc` / `realloc` of the given size returns non-`NULL`. -/
  allocOk : Nat → Bool

/-! ## Traces -/

/-- One observable call of the program, with its arguments. -/
inductive Event where
  | stdout (msg : String)
  | stderr (msg : String)
  | documentNewFromFile (uri : CString)
  | getNPages
  | getPage (index : Int)
  | getPageByLabel (label : CString)
  /-- Entry into `convertPage (page, svgFilename)`. -/
  | convertPage (page : Option PopplerPage) (svgFilename : CString)
  | pageGetSize (page : PopplerPage)
  | svgSurfaceCreate (svgFilename : CString) (width height : CDouble)
  | cairoCreate (surface : CairoSurface)
  | renderForPrinting (page : PopplerPage) (drawcontext : CairoContext)
  | showPage (drawcontext : CairoContext)
  | cairoDestroy (drawcontext : CairoContext)
  | surfaceDestroy (surface : CairoSurface)
  | unrefPage (page : PopplerPage)
  /-- The call `g_object_unref (pdffile)` that releases the document. -/
  | unrefDocument
  deriving DecidableEq, Repr

/-- How a run ends: `main` returns a code, or an `assert` fails. -/
inductive Outcome where
  | exit (code : Int)
  | assertionFailure
  deriving DecidableEq, Repr

/-- A finished run of `main`. -/
structure Run where
  trace : List Event
  outcome : Outcome
  deriving DecidableEq, Repr

/-! ## `getAbsoluteFileName` (lines 34-46) -/

def getAbsoluteFileName (w : World) (fileName : CString) : CString :=
  if w.pathIsAbsolute fileName then fileName
  else w.buildFilename w.currentDir fileName

/-! ## `convertPage` (lines 50-81) -/

/-- The events of one call of `convertPage` and its return value. -/
def convertPage (w : World) (page : Option PopplerPage) (svgFilename : CString) :
    List Event × Int :=
  match page with
  | none => ([Event.convertPage none svgFilename, Event.stderr "Page does not exist\n"], -1)
  | some p =>
    let size := w.pageGetSize p
    let surface := w.svgSurfaceCreate svgFilename size.1 size.2
    let drawcontext := w.cairoCreate surface
    ([Event.convertPage (some p) svgFilename,
      Event.pageGetSize p,
      Event.svgSurfaceCreate svgFilename size.1 size.2,
      Event.cairoCreate surface,
      Event.renderForPrinting p drawcontext,
      Event.showPage drawcontext,
      Event.cairoDestroy drawcontext,
      Event.surfaceDestroy surface,
      Event.unrefPage p], 0)

/-! ## The filename buffer and the probe-and-grow loop (lines 163-178) -/

/-- Model of `snprintf (buf, size, fmt, arg)` with one `int` argument: the new
contents of the buffer and the return value.  At most `size - 1` characters
are stored (nothing when `size = 0`); the return value is the length of the
complete text, or negative when that length does not fit an `int`. -/
def snprintf (w : World) (buf : CString) (size : Nat) (fmt : CString) (arg : Int) :
    CString × Int :=
  let full := w.formatInt fmt arg
  let ret : Int := if (full.length : Int) ≤ INT_MAX then (full.length : Int) else -1
  if size = 0 then (buf, ret) else (full.take (size - 1), ret)

/-- The variables `svgFilenameBufLen` and `svgFilenameBuffer`, with a count of
the `realloc` calls made so far. -/
structure FilenameBuffer where
  svgFilenameBufLen : Nat
  svgFilenameBuffer : CString
  reallocs : Nat
  deriving DecidableEq, Repr

/-- Result of a loop that may fail an `assert` or run out of fuel. -/
inductive Step (α : Type) where
  | ok (a : α)
  | assertFailed
  | outOfFuel
  deriving DecidableEq, Repr

/-- The `while (1)` loop of lines 169-178 for page number `pageNo`. -/
def formatLoop (w : World) (svgFilename : CString) (pageNo : Int) :
    Nat → FilenameBuffer → Step FilenameBuffer
  | 0, _ => Step.outOfFuel
  | fuel + 1, b =>
    let r := snprintf w b.svgFilenameBuffer b.svgFilenameBufLen svgFilename pageNo
    let _wr_len := toSizeT r.2
    if _wr_len ≥ b.svgFilenameBufLen then
      let newLen := toSizeT ((_wr_len : Int) + 1)
      if w.allocOk newLen then
        formatLoop w svgFilename pageNo fuel ⟨newLen, r.1, b.reallocs + 1⟩
      else Step.assertFailed
    else Step.ok ⟨b.svgFilenameBufLen, r.1, b.reallocs⟩

/-! ## The page loop of range mode (lines 167-184) -/

/-- The variables the page loop updates. -/
structure LoopState where
  trace : List Event
  conversionErrors : Int
  buf : FilenameBuffer

/-- How the page loop ends. -/
inductive LoopExit where
  | finished (st : LoopState)
  | assertFailed (trace : List Event)

/-- The `for` loop of lines 168-184, from the current `pageInd`.  `innerFuel`
is the fuel handed to each run of the `while (1)` loop. -/
def rangeLoop (w : World) (pdffile : PopplerDocument) (svgFilename : CString)
    (lastPage : Int) (innerFuel : Nat) : Nat → Int → LoopState → Option LoopExit
  | 0, _, _ => none
  | fuel + 1, pageInd, st =>
    if pageInd < lastPage then
      match formatLoop w svgFilename (wrapInt (pageInd + 1)) innerFuel st.buf with
      | Step.outOfFuel => none
      | Step.assertFailed => some (LoopExit.assertFailed st.trace)
      | Step.ok buf =>
        let page := pdffile.getPage pageInd
        let r := convertPage w page buf.svgFilenameBuffer
        let conversionErrors := if r.2 ≠ 0 then -1 else st.conversionErrors
        rangeLoop w pdffile svgFilename lastPage innerFuel fuel (wrapInt (pageInd + 1))
          ⟨st.trace ++ Event.getPage pageInd :: r.1, conversionErrors, buf⟩
    else some (LoopExit.finished st)

/-! ## `main` (lines 83-206) -/

/-- What `main` receives: the outcome of `g_option_context_parse` (`some msg`
is a parse error with its message), the arguments left after option parsing
(`args[0]` is the program name, `argn` is the length), and the values of
`--first` / `--last` (`0` when not given). -/
structure Invocation where
  optionError : Option String
  args : List CString
  firstPage : Int
  lastPage : Int

/-- Lines 197-204: release the document and turn `conversionErrors` into the
return value. -/
def finish (trace : List Event) (conversionErrors : Int) : Run :=
  ⟨trace ++ [Event.unrefDocument], Outcome.exit (if conversionErrors ≠ 0 then -4 else 0)⟩

/-- Lines 136-204 of `main`: everything after the document was opened. -/
def mainAfterOpen (w : World) (pdffile : PopplerDocument) (pageLabel : Option CString)
    (firstPage lastPage : Int) (svgFilename : CString) (fuel : Nat) : Option Run :=
  if pageLabel = none ∧ firstPage = 0 ∧ lastPage = 0 then
    let page := pdffile.getPage 0
    let r := convertPage w page svgFilename
    some (finish (Event.getPage 0 :: r.1) r.2)
  else
    if pageLabel = none ∨ pageLabel = some ['a', 'l', 'l'] then
      let pageCount := pdffile.nPages
      let firstPage := if firstPage ≤ 0 then 1 else firstPage
      let lastPage := if lastPage ≤ 0 then pageCount else lastPage
      if lastPage > pageCount ∨ firstPage > lastPage then
        some ⟨[Event.getNPages, Event.stderr "Invalid argument\n"], Outcome.exit (-7)⟩
      else if wrapInt (wrapInt (lastPage - firstPage) + 1) > 9999999 then
        some ⟨[Event.getNPages, Event.stderr "Too many pages (>9,999,999)\n"],
          Outcome.exit (-5)⟩
      else
        let svgFilenameBufLen := toSizeT ((svgFilename.length : Int) + 16)
        if w.allocOk svgFilenameBufLen then
          match rangeLoop w pdffile svgFilename lastPage fuel fuel (wrapInt (firstPage - 1))
              ⟨[Event.getNPages], 0, ⟨svgFilenameBufLen, [], 0⟩⟩ with
          | none => none
          | some (LoopExit.assertFailed trace) => some ⟨trace, Outcome.assertionFailure⟩
          | some (LoopExit.finished st) => some (finish st.trace st.conversionErrors)
        else some ⟨[Event.getNPages], Outcome.assertionFailure⟩
    else
      match pageLabel with
      | some label =>
        let page := pdffile.getPageByLabel label
        let r := convertPage w page svgFilename
        some (finish (Event.getPageByLabel label :: r.1) r.2)
      -- not reached: `pageLabel` is not `NULL` in this branch
      | none => some (finish [] 0)

/-- The program's `main`. -/
def main (w : World) (inv : Invocation) (fuel : Nat) : Option Run :=
  match inv.optionError with
  | some msg =>
    some ⟨[Event.stdout ("option parsing failed: " ++ msg ++ "\n")], Outcome.exit (-6)⟩
  | none =>
    if inv.args.length < 3 ∨ inv.args.length > 4 then
      some ⟨[Event.stdout "Usage: pdf2svg <in file.pdf> <out file.svg> [<page no>]\n"],
        Outcome.exit (-2)⟩
    else
      match inv.args with
      | _ :: inFile :: svgFilename :: rest =>
        let absoluteFileName := getAbsoluteFileName w inFile
        let filename_uri := w.filenameToUri absoluteFileName
        let pageLabel := if inv.args.length = 4 then rest.head? else none
        match w.documentNewFromFile filename_uri with
        | none =>
          some ⟨[Event.documentNewFromFile filename_uri, Event.stderr "Unable to open file\n"],
            Outcome.exit (-3)⟩
        | some pdffile =>
          (mainAfterOpen w pdffile pageLabel inv.firstPage inv.lastPage svgFilename fuel).map
            fun run => ⟨Event.documentNewFromFile filename_uri :: run.trace, run.outcome⟩
      -- not reached: `args` has three or four elements here
      | _ => some ⟨[], Outcome.exit (-2)⟩

/-! ## A model of `printf` for the formats the tool is used with -/

/-- Decimal text of an `int`, as `%d` prints it. -/
def decimal (n : Int) : CString :=
  if n < 0 then '-' :: Nat.toDigits 10 n.natAbs else Nat.toDigits 10 n.toNat

/-- The text `printf` produces for a format with one `int` argument, for the
formats made of ordinary characters, `%%`, and at most one `%d` or `%i`.
`used` tells whether the argument was consumed already.  Any other format is
outside this model (`none`). -/
def printfInt (arg : Int) : Bool → CString → Option CString
  | _, [] => some []
  | _, [c] => if c = '%' then none else some [c]
  | used, c :: d :: rest =>
    if c = '%' then
      if d = '%' then (printfInt arg used rest).map fun s => '%' :: s
      else if (d = 'd' ∨ d = 'i') ∧ used = false then
        (printfInt arg true rest).map fun s => decimal arg ++ s
      else none
    else (printfInt arg used (d :: rest)).map fun s => c :: s

/-! ## Specification-side definitions -/

/-- Lower bound of range mode: `1` when `--first` is unset or not positive. -/
def effectiveFirst (first : Int) : Int := if first ≤ 0 then 1 else first

/-- Upper bound of range mode: the page count when `--last` is unset or not
positive. -/
def effectiveLast (pageCount last : Int) : Int := if last ≤ 0 then pageCount else last

/-- The 1-based page numbers `first, first + 1, ..., last` in ascending order. -/
def pageNumbers (first last : Int) : List Int :=
  (List.range (last - first + 1).toNat).map fun (k : Nat) => first + (k : Int)

/-- The zero-based indices passed to `poppler_document_get_page`, in order. -/
def fetchedIndices : List Event → List Int
  | [] => []
  | Event.getPage i :: rest => i :: fetchedIndices rest
  | _ :: rest => fetchedIndices rest

/-- The labels passed to `poppler_document_get_page_by_label`, in order. -/
def labelLookups : List Event → List CString
  | [] => []
  | Event.getPageByLabel l :: rest => l :: labelLookups rest
  | _ :: rest => labelLookups rest

/-- The calls of `convertPage`, in order: the page and the output path. -/
def convertCalls : List Event → List (Option PopplerPage × CString)
  | [] => []
  | Event.convertPage p f :: rest => (p, f) :: convertCalls rest
  | _ :: rest => convertCalls rest

/-- Whether an event creates an output surface (and with it the output file)
or a drawing context. -/
def createsOutput : Event → Bool
  | Event.svgSurfaceCreate _ _ _ => true
  | Event.cairoCreate _ => true
  | _ => false

/-- The command line `prog inFile svgFilename [label]` with the given
`--first` / `--last` values, after successful option parsing. -/
def invocation (prog inFile svgFilename : CString) (label : Option CString)
    (first last : Int) : Invocation :=
  ⟨none, prog :: inFile :: svgFilename :: label.toList, first, last⟩

/-- Return value of `convertPage` for the 1-based page `n` in range mode. -/
def pageResult (w : World) (doc : PopplerDocument) (t : CString) (n : Int) : Int :=
  (convertPage w (doc.getPage (n - 1)) (w.formatInt t n)).2

/-- The events of range mode for the 1-based page `n`: the lookup of index
`n - 1`, then the conversion to the template formatted with `n`. -/
def pageEvents (w : World) (doc : PopplerDocument) (t : CString) (n : Int) : List Event :=
  Event.getPage (n - 1) :: (convertPage w (doc.getPage (n - 1)) (w.formatInt t n)).1

/-- The events of range mode for a list of 1-based page numbers. -/
def pagesTrace (w : World) (doc : PopplerDocument) (t : CString) : List Int → List Event
  | [] => []
  | n :: ns => pageEvents w doc t n ++ pagesTrace w doc t ns

/-- Whether the conversion of one of the listed pages returns failure. -/
def anyFailed (w : World) (doc : PopplerDocument) (t : CString) (ns : List Int) : Bool :=
  ns.any fun n => decide (pageResult w doc t n ≠ 0)

/-- The locator `main` opens for the input file argument. -/
def locator (w : World) (inFile : CString) : CString :=
  w.filenameToUri (getAbsoluteFileName w inFile)

/-! ## Concrete worlds used to instantiate the theorems -/

/-- A document of `n` pages whose only labelled page is `ii` (index 1). -/
def demoDocument (n : Int) : PopplerDocument where
  nPages := n
  getPage := fun i => if 0 ≤ i ∧ i < n then some ⟨i.toNat⟩ else none
  getPageByLabel := fun l => if l = ['i', 'i'] ∧ 1 < n then some ⟨1⟩ else none

/-- A document of three pages whose page at index 1 cannot be loaded. -/
def damagedDocument : PopplerDocument where
  nPages := 3
  getPage := fun i => if i = 0 ∨ i = 2 then some ⟨i.toNat⟩ else none
  getPageByLabel := fun _ => none

/-- A world in which every file name opens the given document, printf
follows `printfInt`, allocation succeeds, and surfaces are created with the
given status. -/
def worldOf (doc : PopplerDocument) (surfaceStatus : Nat) : World where
  pathIsAbsolute := fun p => p.head? = some '/'
  currentDir := ['/', 't', 'm', 'p']
  buildFilename := fun d f => d ++ '/' :: f
  filenameToUri := fun p => ['f', 'i', 'l', 'e', ':', '/', '/'] ++ p
  documentNewFromFile := fun _ => some doc
  pageGetSize := fun _ => (⟨4648488871632306176⟩, ⟨4651248841050357760⟩)
  svgSurfaceCreate := fun _ _ _ => ⟨1, surfaceStatus⟩
  cairoCreate := fun s => ⟨2, s.status⟩
  renderStatus := fun _ c => c.status
  formatInt := fun t k => (printfInt k false t).getD t
  allocOk := fun _ => true

/-- The world of a healthy document of `n` pages. -/
def demoWorld (n : Int) (surfaceStatus : Nat) : World :=
  worldOf (demoDocument n) surfaceStatus

/-! ## Machine arithmetic -/

theorem wrapInt_eq_self {x : Int} (h1 : -2147483648 ≤ x) (h2 : x ≤ 2147483647) :
    wrapInt x = x := by
  unfold wrapInt
  omega

theorem toSizeT_natCast {n : Nat} (h : n < 18446744073709551616) :
    toSizeT (n : Int) = n := by
  unfold toSizeT
  omega

theorem toSizeT_natCast_succ {n : Nat} (h : n + 1 < 18446744073709551616) :
    toSizeT ((n : Int) + 1) = n + 1 := by
  unfold toSizeT
  omega

theorem snprintf_snd (w : World) (buf : CString) (size : Nat) (t : CString) (n : Int)
    (hfmt : ((w.formatInt t n).length : Int) ≤ INT_MAX) :
    (snprintf w buf size t n).2 = ((w.formatInt t n).length : Int) := by
  unfold snprintf
  by_cases h : size = 0 <;> simp [h, hfmt]

theorem snprintf_fst (w : World) (buf : CString) (size : Nat) (t : CString) (n : Int)
    (hsize : (w.formatInt t n).length < size) :
    (snprintf w buf size t n).1 = w.formatInt t n := by
  unfold snprintf
  have h : size ≠ 0 := by omega
  simp only [h, if_false]
  exact List.take_of_length_le (by omega)

/-- One round of the `while (1)` loop when the text fits the buffer. -/
theorem formatLoop_fit (w : World) (t : CString) (n : Int)
    (hfmt : ((w.formatInt t n).length : Int) ≤ INT_MAX) (f : Nat) (b : FilenameBuffer)
    (hcap : (w.formatInt t n).length < b.svgFilenameBufLen) :
    formatLoop w t n (f + 1) b =
      Step.ok ⟨b.svgFilenameBufLen, w.formatInt t n, b.reallocs⟩ := by
  have hL : (w.formatInt t n).length < 18446744073709551616 := by
    unfold INT_MAX at hfmt; omega
  have hlt : ¬ b.svgFilenameBufLen ≤ (w.formatInt t n).length := by omega
  simp only [formatLoop, snprintf_snd w _ _ t n hfmt, toSizeT_natCast hL, ge_iff_le, hlt,
    if_false, snprintf_fst w _ _ t n hcap]

/-- One round of the `while (1)` loop when the text does not fit the buffer. -/
theorem formatLoop_grow (w : World) (t : CString) (n : Int)
    (hfmt : ((w.formatInt t n).length : Int) ≤ INT_MAX)
    (halloc : w.allocOk ((w.formatInt t n).length + 1) = true) (f : Nat) (b : FilenameBuffer)
    (hcap : b.svgFilenameBufLen ≤ (w.formatInt t n).length) :
    formatLoop w t n (f + 1) b =
      formatLoop w t n f ⟨(w.formatInt t n).length + 1,
        (snprintf w b.svgFilenameBuffer b.svgFilenameBufLen t n).1, b.reallocs + 1⟩ := by
  have hL : (w.formatInt t n).length < 18446744073709551616 := by
    unfold INT_MAX at hfmt; omega
  have hL1 : (w.formatInt t n).length + 1 < 18446744073709551616 := by
    unfold INT_MAX at hfmt; omega
  simp only [formatLoop, snprintf_snd w _ _ t n hfmt, toSizeT_natCast hL, ge_iff_le, hcap,
    if_true, toSizeT_natCast_succ hL1, halloc]

/-- With a complete text of `int`-representable length and a `realloc` that
succeeds, two rounds of the `while (1)` loop are enough from any buffer. -/
theorem formatLoop_ok (w : World) (t : CString) (n : Int)
    (hfmt : ((w.formatInt t n).length : Int) ≤ INT_MAX)
    (halloc : w.allocOk ((w.formatInt t n).length + 1) = true)
    (fuel : Nat) (hfuel : 2 ≤ fuel) (b : FilenameBuffer) :
    ∃ r, formatLoop w t n fuel b = Step.ok r ∧
      r.svgFilenameBuffer = w.formatInt t n ∧
      (w.formatInt t n).length < r.svgFilenameBufLen ∧
      b.reallocs ≤ r.reallocs ∧ r.reallocs ≤ b.reallocs + 1 := by
  obtain ⟨f, rfl⟩ : ∃ f, fuel = f + 2 := ⟨fuel - 2, by omega⟩
  by_cases hcap : (w.formatInt t n).length < b.svgFilenameBufLen
  · exact ⟨_, formatLoop_fit w t n hfmt (f + 1) b hcap, rfl, hcap, le_refl _, by simp⟩
  · have hge : b.svgFilenameBufLen ≤ (w.formatInt t n).length := by omega
    refine ⟨⟨(w.formatInt t n).length + 1, w.formatInt t n, b.reallocs + 1⟩, ?_, rfl,
      by simp, by simp, le_refl _⟩
    rw [formatLoop_grow w t n hfmt halloc (f + 1) b hge]
    exact formatLoop_fit w t n hfmt f _ (by simp)

/-! ## The page loop -/

theorem pageNumbers_of_lt {a b : Int} (h : b < a) : pageNumbers a b = [] := by
  unfold pageNumbers
  have : (b - a + 1).toNat = 0 := by omega
  simp [this]

theorem pageNumbers_cons {a b : Int} (h : a ≤ b) :
    pageNumbers a b = a :: pageNumbers (a + 1) b := by
  unfold pageNumbers
  obtain ⟨k, hk⟩ : ∃ k : Nat, (b - a + 1).toNat = k + 1 := ⟨(b - a).toNat, by omega⟩
  have hk2 : (b - (a + 1) + 1).toNat = k := by omega
  rw [hk, hk2, List.range_succ_eq_map]
  simp only [List.map_cons, List.map_map, Nat.cast_zero, add_zero, List.cons.injEq, true_and]
  apply List.map_congr_left
  intro x _
  simp only [Function.comp_apply, Nat.cast_succ]
  omega

theorem mem_pageNumbers {a b n : Int} : n ∈ pageNumbers a b ↔ a ≤ n ∧ n ≤ b := by
  unfold pageNumbers
  simp only [List.mem_map, List.mem_range]
  constructor
  · rintro ⟨k, hk, rfl⟩
    omega
  · rintro ⟨h1, h2⟩
    exact ⟨(n - a).toNat, by omega, by omega⟩

theorem length_pageNumbers (a b : Int) : (pageNumbers a b).length = (b - a + 1).toNat := by
  simp [pageNumbers]

theorem rangeLoop_finished (w : World) (doc : PopplerDocument) (t : CString) (lastPage : Int)
    (innerFuel : Nat) (hinner : 2 ≤ innerFuel) (hlast : lastPage ≤ INT_MAX)
    (halloc : ∀ s, w.allocOk s = true) :
    ∀ (k fuel : Nat) (pageInd : Int) (st : LoopState),
      0 ≤ pageInd → pageInd + k = lastPage → k < fuel →
      (∀ n, pageInd < n → n ≤ lastPage → ((w.formatInt t n).length : Int) ≤ INT_MAX) →
      ∃ st', rangeLoop w doc t lastPage innerFuel fuel pageInd st = some (LoopExit.finished st') ∧
        st'.trace = st.trace ++ pagesTrace w doc t (pageNumbers (pageInd + 1) lastPage) ∧
        st'.conversionErrors =
          if anyFailed w doc t (pageNumbers (pageInd + 1) lastPage) then -1
          else st.conversionErrors := by
  intro k
  induction k with
  | zero =>
    intro fuel pageInd st _ hk hfuel _
    obtain ⟨f, rfl⟩ : ∃ f, fuel = f + 1 := ⟨fuel - 1, by omega⟩
    have hnot : ¬ pageInd < lastPage := by simp at hk; omega
    have hnil : pageNumbers (pageInd + 1) lastPage = [] := pageNumbers_of_lt (by simp at hk; omega)
    refine ⟨st, ?_, ?_, ?_⟩
    · simp only [rangeLoop, hnot, if_false]
    · simp [hnil, pagesTrace]
    · simp [hnil, anyFailed]
  | succ k ih =>
    intro fuel pageInd st h0 hk hfuel hfmt
    obtain ⟨f, rfl⟩ : ∃ f, fuel = f + 1 := ⟨fuel - 1, by omega⟩
    have hlt : pageInd < lastPage := by push_cast at hk; omega
    have hwrap : wrapInt (pageInd + 1) = pageInd + 1 :=
      wrapInt_eq_self (by omega) (by unfold INT_MAX at hlast; omega)
    obtain ⟨buf, hbuf, hcontents, -, -, -⟩ :=
      formatLoop_ok w t (pageInd + 1) (hfmt _ (by omega) (by omega)) (halloc _) innerFuel hinner
        st.buf
    obtain ⟨st', hrun, htrace, herr⟩ := ih f (pageInd + 1)
      ⟨st.trace ++ Event.getPage pageInd :: (convertPage w (doc.getPage pageInd)
          buf.svgFilenameBuffer).1,
        if (convertPage w (doc.getPage pageInd) buf.svgFilenameBuffer).2 ≠ 0 then -1
        else st.conversionErrors, buf⟩
      (by omega) (by push_cast at hk; omega) (by omega)
      (fun n h1 h2 => hfmt n (by omega) h2)
    refine ⟨st', ?_, ?_, ?_⟩
    · simp only [rangeLoop, hlt, if_true, hwrap, hbuf]
      exact hrun
    · rw [htrace, pageNumbers_cons (by omega : pageInd + 1 ≤ lastPage)]
      simp [pagesTrace, pageEvents, hcontents]
    · rw [herr, pageNumbers_cons (by omega : pageInd + 1 ≤ lastPage)]
      simp only [anyFailed, List.any_cons, pageResult, hcontents, add_sub_cancel_right]
      by_cases hp : (convertPage w (doc.getPage pageInd) (w.formatInt t (pageInd + 1))).2 = 0
      · simp [hp]
      · simp [hp]

/-! ## Projections of traces -/

theorem fetchedIndices_append (a b : List Event) :
    fetchedIndices (a ++ b) = fetchedIndices a ++ fetchedIndices b := by
  induction a with
  | nil => rfl
  | cons e a ih => cases e <;> simp [fetchedIndices, ih]

theorem convertCalls_append (a b : List Event) :
    convertCalls (a ++ b) = convertCalls a ++ convertCalls b := by
  induction a with
  | nil => rfl
  | cons e a ih => cases e <;> simp [convertCalls, ih]

theorem fetchedIndices_convertPage (w : World) (page : Option PopplerPage) (f : CString) :
    fetchedIndices (convertPage w page f).1 = [] := by
  cases page <;> rfl

theorem convertCalls_convertPage (w : World) (page : Option PopplerPage) (f : CString) :
    convertCalls (convertPage w page f).1 = [(page, f)] := by
  cases page <;> rfl

theorem labelLookups_convertPage (w : World) (page : Option PopplerPage) (f : CString) :
    labelLookups (convertPage w page f).1 = [] := by
  cases page <;> rfl

theorem fetchedIndices_pagesTrace (w : World) (doc : PopplerDocument) (t : CString)
    (ns : List Int) :
    fetchedIndices (pagesTrace w doc t ns) = ns.map fun n => n - 1 := by
  induction ns with
  | nil => rfl
  | cons n ns ih =>
    simp [pagesTrace, pageEvents, fetchedIndices, fetchedIndices_append,
      fetchedIndices_convertPage, ih]

theorem convertCalls_pagesTrace (w : World) (doc : PopplerDocument) (t : CString)
    (ns : List Int) :
    convertCalls (pagesTrace w doc t ns) =
      ns.map fun n => (doc.getPage (n - 1), w.formatInt t n) := by
  induction ns with
  | nil => rfl
  | cons n ns ih =>
    simp [pagesTrace, pageEvents, convertCalls, convertCalls_append,
      convertCalls_convertPage, ih]

theorem labelLookups_pagesTrace (w : World) (doc : PopplerDocument) (t : CString)
    (ns : List Int) : labelLookups (pagesTrace w doc t ns) = [] := by
  induction ns with
  | nil => rfl
  | cons n ns ih =>
    have happ : ∀ a b : List Event, labelLookups a = [] → labelLookups b = [] →
        labelLookups (a ++ b) = [] := by
      intro a b ha hb
      induction a with
      | nil => exact hb
      | cons e a iha => cases e <;> simp_all [labelLookups]
    exact happ _ _ (by simp [pageEvents, labelLookups, labelLookups_convertPage]) ih

/-! ## From `main` to the code after the document is opened -/

theorem main_invocation (w : World) (doc : PopplerDocument)
    (prog inFile svgFilename : CString) (label : Option CString) (first last : Int)
    (fuel : Nat) (hopen : w.documentNewFromFile (locator w inFile) = some doc) :
    main w (invocation prog inFile svgFilename label first last) fuel =
      (mainAfterOpen w doc label first last svgFilename fuel).map
        fun run => ⟨Event.documentNewFromFile (locator w inFile) :: run.trace, run.outcome⟩ := by
  unfold locator at hopen
  cases label <;> simp [main, invocation, hopen, locator]

/-- Range mode with valid bounds: the run of the code after the document is
opened. -/
theorem mainAfterOpen_range (w : World) (doc : PopplerDocument) (svgFilename : CString)
    (label : Option CString) (first last : Int) (fuel : Nat)
    (hlabel : label = none ∨ label = some ['a', 'l', 'l'])
    (hrange : ¬ (label = none ∧ first = 0 ∧ last = 0))
    (hle : effectiveFirst first ≤ effectiveLast doc.nPages last)
    (hhi : effectiveLast doc.nPages last ≤ doc.nPages)
    (hcount : effectiveLast doc.nPages last - effectiveFirst first + 1 ≤ 9999999)
    (hint : doc.nPages ≤ INT_MAX)
    (hfmt : ∀ n, effectiveFirst first ≤ n → n ≤ effectiveLast doc.nPages last →
      ((w.formatInt svgFilename n).length : Int) ≤ INT_MAX)
    (halloc : ∀ size, w.allocOk size = true)
    (hfuel : (effectiveLast doc.nPages last - effectiveFirst first + 1).toNat < fuel) :
    mainAfterOpen w doc label first last svgFilename fuel =
      some (finish
        (Event.getNPages :: pagesTrace w doc svgFilename
          (pageNumbers (effectiveFirst first) (effectiveLast doc.nPages last)))
        (if anyFailed w doc svgFilename
            (pageNumbers (effectiveFirst first) (effectiveLast doc.nPages last)) then -1
          else 0)) := by
  have hF1 : 1 ≤ effectiveFirst first := by unfold effectiveFirst; split <;> omega
  have hmax : effectiveLast doc.nPages last ≤ 2147483647 := by unfold INT_MAX at hint; omega
  have hinv : ¬ (effectiveLast doc.nPages last > doc.nPages ∨
      effectiveFirst first > effectiveLast doc.nPages last) := by omega
  have hw1 : wrapInt (effectiveLast doc.nPages last - effectiveFirst first) =
      effectiveLast doc.nPages last - effectiveFirst first :=
    wrapInt_eq_self (by omega) (by omega)
  have hw2 : wrapInt (effectiveLast doc.nPages last - effectiveFirst first + 1) =
      effectiveLast doc.nPages last - effectiveFirst first + 1 :=
    wrapInt_eq_self (by omega) (by omega)
  have hw3 : wrapInt (effectiveFirst first - 1) = effectiveFirst first - 1 :=
    wrapInt_eq_self (by omega) (by omega)
  have hbig : ¬ (effectiveLast doc.nPages last - effectiveFirst first + 1 > 9999999) := by
    omega
  obtain ⟨st', hrun, htrace, herr⟩ :=
    rangeLoop_finished w doc svgFilename (effectiveLast doc.nPages last) fuel (by omega)
      (by unfold INT_MAX; omega) halloc
      (effectiveLast doc.nPages last - effectiveFirst first + 1).toNat fuel
      (effectiveFirst first - 1)
      ⟨[Event.getNPages], 0, ⟨toSizeT ((svgFilename.length : Int) + 16), [], 0⟩⟩
      (by omega) (by omega) hfuel (fun n h1 h2 => hfmt n (by omega) h2)
  simp only [sub_add_cancel] at htrace herr
  have hunfold : mainAfterOpen w doc label first last svgFilename fuel =
      some (finish st'.trace st'.conversionErrors) := by
    unfold mainAfterOpen
    simp only [hrange, if_false, hlabel, if_true]
    rw [show (if first ≤ 0 then (1 : Int) else first) = effectiveFirst first from rfl,
      show (if last ≤ 0 then doc.nPages else last) = effectiveLast doc.nPages last from rfl,
      if_neg hinv, hw1, hw2, if_neg hbig]
    simp only [halloc, if_true, hw3, hrun]
  rw [hunfold, htrace, herr]
  rfl

/-! ## The branches of `main` after the document is opened -/

/-- Range mode with invalid bounds: the code after the document is opened
returns -7 at once. -/
theorem mainAfterOpen_invalid (w : World) (doc : PopplerDocument) (svgFilename : CString)
    (label : Option CString) (first last : Int) (fuel : Nat)
    (hlabel : label = none ∨ label = some ['a', 'l', 'l'])
    (hrange : ¬ (label = none ∧ first = 0 ∧ last = 0))
    (hbad : effectiveLast doc.nPages last > doc.nPages ∨
      effectiveFirst first > effectiveLast doc.nPages last) :
    mainAfterOpen w doc label first last svgFilename fuel =
      some ⟨[Event.getNPages, Event.stderr "Invalid argument\n"], Outcome.exit (-7)⟩ := by
  unfold mainAfterOpen
  simp only [hrange, if_false, hlabel, if_true]
  rw [show (if first ≤ 0 then (1 : Int) else first) = effectiveFirst first from rfl,
    show (if last ≤ 0 then doc.nPages else last) = effectiveLast doc.nPages last from rfl,
    if_pos hbad]

/-- Range mode with valid bounds spanning more than 9,999,999 pages: the
code after the document is opened returns -5 at once. -/
theorem mainAfterOpen_tooMany (w : World) (doc : PopplerDocument) (svgFilename : CString)
    (label : Option CString) (first last : Int) (fuel : Nat)
    (hlabel : label = none ∨ label = some ['a', 'l', 'l'])
    (hrange : ¬ (label = none ∧ first = 0 ∧ last = 0))
    (hhi : effectiveLast doc.nPages last ≤ doc.nPages)
    (hint : doc.nPages ≤ INT_MAX)
    (hcount : effectiveLast doc.nPages last - effectiveFirst first + 1 > 9999999) :
    mainAfterOpen w doc label first last svgFilename fuel =
      some ⟨[Event.getNPages, Event.stderr "Too many pages (>9,999,999)\n"],
        Outcome.exit (-5)⟩ := by
  have hF1 : 1 ≤ effectiveFirst first := by unfold effectiveFirst; split <;> omega
  have hmax : effectiveLast doc.nPages last ≤ 2147483647 := by unfold INT_MAX at hint; omega
  have hinv : ¬ (effectiveLast doc.nPages last > doc.nPages ∨
      effectiveFirst first > effectiveLast doc.nPages last) := by omega
  have hw1 : wrapInt (effectiveLast doc.nPages last - effectiveFirst first) =
      effectiveLast doc.nPages last - effectiveFirst first :=
    wrapInt_eq_self (by omega) (by omega)
  have hw2 : wrapInt (effectiveLast doc.nPages last - effectiveFirst first + 1) =
      effectiveLast doc.nPages last - effectiveFirst first + 1 :=
    wrapInt_eq_self (by omega) (by omega)
  unfold mainAfterOpen
  simp only [hrange, if_false, hlabel, if_true]
  rw [show (if first ≤ 0 then (1 : Int) else first) = effectiveFirst first from rfl,
    show (if last ≤ 0 then doc.nPages else last) = effectiveLast doc.nPages last from rfl,
    if_neg hinv, hw1, hw2, if_pos hcount]

/-- The default case: the code after the document is opened converts index 0
to the output path as given. -/
theorem mainAfterOpen_default (w : World) (doc : PopplerDocument) (svgFilename : CString)
    (fuel : Nat) :
    mainAfterOpen w doc none 0 0 svgFilename fuel =
      some (finish (Event.getPage 0 :: (convertPage w (doc.getPage 0) svgFilename).1)
        (convertPage w (doc.getPage 0) svgFilename).2) := by
  simp [mainAfterOpen]

/-- A label other than `all`: the code after the document is opened looks the
page up by label and converts it to the output path as given. -/
theorem mainAfterOpen_label (w : World) (doc : PopplerDocument) (svgFilename : CString)
    (l : CString) (first last : Int) (fuel : Nat) (hl : l ≠ ['a', 'l', 'l']) :
    mainAfterOpen w doc (some l) first last svgFilename fuel =
      some (finish
        (Event.getPageByLabel l :: (convertPage w (doc.getPageByLabel l) svgFilename).1)
        (convertPage w (doc.getPageByLabel l) svgFilename).2) := by
  simp [mainAfterOpen, hl]

/-- The return value computed at lines 199-204 is -4 or 0. -/
theorem exit_finish_ne (c : Int) {k : Int} (h4 : k ≠ -4) (h0 : k ≠ 0) :
    Outcome.exit (if c ≠ 0 then -4 else 0) ≠ Outcome.exit k := by
  intro h
  simp only [Outcome.exit.injEq] at h
  split at h <;> omega

theorem createsOutput_convertPage_none (w : World) (f : CString) :
    ∀ e ∈ (convertPage w none f).1, createsOutput e = false := by
  intro e he
  simp only [convertPage, List.mem_cons, List.mem_singleton, List.not_mem_nil, or_false] at he
  rcases he with rfl | rfl <;> rfl

theorem anyFailed_eq_true (w : World) (doc : PopplerDocument) (t : CString) (a b : Int) :
    anyFailed w doc t (pageNumbers a b) = true ↔
      ∃ n, a ≤ n ∧ n ≤ b ∧ pageResult w doc t n ≠ 0 := by
  unfold anyFailed
  rw [List.any_eq_true]
  constructor
  · rintro ⟨n, hn, hres⟩
    rw [mem_pageNumbers] at hn
    exact ⟨n, hn.1, hn.2, of_decide_eq_true hres⟩
  · rintro ⟨n, h1, h2, hres⟩
    exact ⟨n, mem_pageNumbers.mpr ⟨h1, h2⟩, decide_eq_true hres⟩

/-- A format without `%` is printed unchanged. -/
theorem printfInt_plain (arg : Int) :
    ∀ (used : Bool) (t : CString), '%' ∉ t → printfInt arg used t = some t
  | _, [], _ => by simp [printfInt]
  | _, [c], h => by
    have hc : c ≠ '%' := fun hc => h (by simp [hc])
    simp [printfInt, hc]
  | used, c :: d :: rest, h => by
    have hc : c ≠ '%' := fun hc => h (by simp [hc])
    have ih := printfInt_plain arg used (d :: rest) (fun hm => h (List.mem_cons_of_mem c hm))
    simp [printfInt, hc, ih]

/-! ## Claims -/

/-- C1. Range mode converts exactly the requested pages.  For a document of
`P` pages opened from the input file, a label that is absent or `all` (the
default case apart) and bounds with `effectiveFirst ≤ effectiveLast ≤ P`
(`1 ≤ effectiveFirst` holds for every `first`) and at most 9,999,999 pages in
between, `main` returns, and its run performs exactly
`effectiveLast - effectiveFirst + 1` conversions, for `n = effectiveFirst, ...,
effectiveLast` in ascending order, the one for `n` fetching index `n - 1` and
converting it to the template formatted with `n`; the whole trace is the
opening of the document, the page count query, these page steps, and the
release of the document. -/
theorem range_mode_converts_requested_pages (w : World) (doc : PopplerDocument)
    (prog inFile svgFilename : CString) (label : Option CString) (first last : Int)
    (fuel : Nat)
    (hopen : w.documentNewFromFile (locator w inFile) = some doc)
    (hlabel : label = none ∨ label = some ['a', 'l', 'l'])
    (hrange : ¬ (label = none ∧ first = 0 ∧ last = 0))
    (hle : effectiveFirst first ≤ effectiveLast doc.nPages last)
    (hhi : effectiveLast doc.nPages last ≤ doc.nPages)
    (hcount : effectiveLast doc.nPages last - effectiveFirst first + 1 ≤ 9999999)
    (hint : doc.nPages ≤ INT_MAX)
    (hfmt : ∀ n, effectiveFirst first ≤ n → n ≤ effectiveLast doc.nPages last →
      ((w.formatInt svgFilename n).length : Int) ≤ INT_MAX)
    (halloc : ∀ size, w.allocOk size = true)
    (hfuel : (effectiveLast doc.nPages last - effectiveFirst first + 1).toNat < fuel) :
    ∃ run, main w (invocation prog inFile svgFilename label first last) fuel = some run ∧
      ((convertCalls run.trace).length : Int) =
        effectiveLast doc.nPages last - effectiveFirst first + 1 ∧
      fetchedIndices run.trace =
        (pageNumbers (effectiveFirst first) (effectiveLast doc.nPages last)).map
          (fun n => n - 1) ∧
      convertCalls run.trace =
        (pageNumbers (effectiveFirst first) (effectiveLast doc.nPages last)).map
          (fun n => (doc.getPage (n - 1), w.formatInt svgFilename n)) ∧
      labelLookups run.trace = [] ∧
      run.trace = Event.documentNewFromFile (locator w inFile) :: Event.getNPages ::
        pagesTrace w doc svgFilename
          (pageNumbers (effectiveFirst first) (effectiveLast doc.nPages last)) ++
        [Event.unrefDocument] := by
  have hmain := main_invocation w doc prog inFile svgFilename label first last fuel hopen
  rw [mainAfterOpen_range w doc svgFilename label first last fuel hlabel hrange hle hhi hcount
    hint hfmt halloc hfuel] at hmain
  have hcalls : convertCalls (Event.documentNewFromFile (locator w inFile) ::
      Event.getNPages :: pagesTrace w doc svgFilename
        (pageNumbers (effectiveFirst first) (effectiveLast doc.nPages last)) ++
      [Event.unrefDocument]) =
      (pageNumbers (effectiveFirst first) (effectiveLast doc.nPages last)).map
        (fun n => (doc.getPage (n - 1), w.formatInt svgFilename n)) := by
    simp [convertCalls, convertCalls_append, convertCalls_pagesTrace]
  have hlabels : labelLookups (Event.documentNewFromFile (locator w inFile) ::
      Event.getNPages :: pagesTrace w doc svgFilename
        (pageNumbers (effectiveFirst first) (effectiveLast doc.nPages last)) ++
      [Event.unrefDocument]) = [] := by
    have happ : ∀ a : List Event, labelLookups a = [] →
        labelLookups (a ++ [Event.unrefDocument]) = [] := by
      intro a ha
      induction a with
      | nil => rfl
      | cons e a iha => cases e <;> simp_all [labelLookups]
    simp only [labelLookups, List.cons_append]
    exact happ _ (labelLookups_pagesTrace w doc svgFilename _)
  refine ⟨⟨Event.documentNewFromFile (locator w inFile) :: Event.getNPages ::
      pagesTrace w doc svgFilename
        (pageNumbers (effectiveFirst first) (effectiveLast doc.nPages last)) ++
      [Event.unrefDocument], _⟩, hmain, ?_, ?_, hcalls, hlabels, rfl⟩
  · rw [hcalls, List.length_map, length_pageNumbers]
    omega
  · simp [fetchedIndices, fetchedIndices_append, fetchedIndices_pagesTrace]

/-- C1 at a three-page document, `p%d.svg`, label `all`: pages 1, 2, 3. -/
theorem range_mode_converts_requested_pages_witness :
    ∃ run, main (demoWorld 3 0)
        (invocation ['p', 'd', 'f', '2', 's', 'v', 'g'] ['a', '.', 'p', 'd', 'f']
          ['p', '%', 'd', '.', 's', 'v', 'g'] (some ['a', 'l', 'l']) 0 0) 4 = some run ∧
      ((convertCalls run.trace).length : Int) = 3 - 1 + 1 ∧
      fetchedIndices run.trace = (pageNumbers 1 3).map (fun n => n - 1) ∧
      convertCalls run.trace = (pageNumbers 1 3).map
        (fun n => ((demoDocument 3).getPage (n - 1),
          (demoWorld 3 0).formatInt ['p', '%', 'd', '.', 's', 'v', 'g'] n)) ∧
      labelLookups run.trace = [] ∧
      run.trace = Event.documentNewFromFile
          (locator (demoWorld 3 0) ['a', '.', 'p', 'd', 'f']) :: Event.getNPages ::
        pagesTrace (demoWorld 3 0) (demoDocument 3) ['p', '%', 'd', '.', 's', 'v', 'g']
          (pageNumbers 1 3) ++ [Event.unrefDocument] :=
  range_mode_converts_requested_pages (demoWorld 3 0) (demoDocument 3)
    ['p', 'd', 'f', '2', 's', 'v', 'g'] ['a', '.', 'p', 'd', 'f']
    ['p', '%', 'd', '.', 's', 'v', 'g'] (some ['a', 'l', 'l']) 0 0 4
    rfl (Or.inr rfl) (by decide) (by decide) (by decide) (by decide) (by decide)
    (by intro n h1 h2
        have h1' : (1 : Int) ≤ n := h1
        have h2' : n ≤ 3 := h2
        interval_cases n <;> decide)
    (fun _ => rfl) (by decide)

/-- C2. In range mode (label absent or `all`, the default case apart) `main`
returns, and its run ends with the invalid-range code -7 exactly when
`effectiveLast > P` or `effectiveFirst > effectiveLast`, in which case no
page is fetched or converted; whenever a page is fetched,
`1 ≤ effectiveFirst ≤ effectiveLast ≤ P` holds and every index passed to the
page lookup lies in `[0, P)`. -/
theorem invalid_range_aborts_iff (w : World) (doc : PopplerDocument)
    (prog inFile svgFilename : CString) (label : Option CString) (first last : Int)
    (fuel : Nat)
    (hopen : w.documentNewFromFile (locator w inFile) = some doc)
    (hlabel : label = none ∨ label = some ['a', 'l', 'l'])
    (hrange : ¬ (label = none ∧ first = 0 ∧ last = 0))
    (hint : doc.nPages ≤ INT_MAX)
    (hfmt : ∀ n, effectiveFirst first ≤ n → n ≤ effectiveLast doc.nPages last →
      ((w.formatInt svgFilename n).length : Int) ≤ INT_MAX)
    (halloc : ∀ size, w.allocOk size = true)
    (hfuel : effectiveLast doc.nPages last - effectiveFirst first + 1 ≤ 9999999 →
      (effectiveLast doc.nPages last - effectiveFirst first + 1).toNat < fuel) :
    ∃ run, main w (invocation prog inFile svgFilename label first last) fuel = some run ∧
      (run.outcome = Outcome.exit (-7) ↔
        (effectiveLast doc.nPages last > doc.nPages ∨
          effectiveFirst first > effectiveLast doc.nPages last)) ∧
      ((effectiveLast doc.nPages last > doc.nPages ∨
          effectiveFirst first > effectiveLast doc.nPages last) →
        fetchedIndices run.trace = [] ∧ labelLookups run.trace = [] ∧
          convertCalls run.trace = []) ∧
      (fetchedIndices run.trace ≠ [] →
        1 ≤ effectiveFirst first ∧ effectiveFirst first ≤ effectiveLast doc.nPages last ∧
          effectiveLast doc.nPages last ≤ doc.nPages) ∧
      (∀ i ∈ fetchedIndices run.trace, 0 ≤ i ∧ i < doc.nPages) := by
  have hmain := main_invocation w doc prog inFile svgFilename label first last fuel hopen
  have hF1 : 1 ≤ effectiveFirst first := by unfold effectiveFirst; split <;> omega
  by_cases hbad : effectiveLast doc.nPages last > doc.nPages ∨
      effectiveFirst first > effectiveLast doc.nPages last
  · rw [mainAfterOpen_invalid w doc svgFilename label first last fuel hlabel hrange hbad] at hmain
    refine ⟨_, hmain, ?_, ?_, ?_, ?_⟩
    · simp [hbad]
    · intro _; exact ⟨rfl, rfl, rfl⟩
    · intro h; exact absurd rfl h
    · intro i hi; simp [fetchedIndices] at hi
  · have hle : effectiveFirst first ≤ effectiveLast doc.nPages last := by omega
    have hhi : effectiveLast doc.nPages last ≤ doc.nPages := by omega
    by_cases hcount : effectiveLast doc.nPages last - effectiveFirst first + 1 > 9999999
    · rw [mainAfterOpen_tooMany w doc svgFilename label first last fuel hlabel hrange hhi
        hint hcount] at hmain
      refine ⟨_, hmain, ?_, ?_, ?_, ?_⟩
      · simp [hbad]
      · intro h; exact absurd h hbad
      · intro h; exact absurd rfl h
      · intro i hi; simp [fetchedIndices] at hi
    · have hcount' : effectiveLast doc.nPages last - effectiveFirst first + 1 ≤ 9999999 := by
        omega
      rw [mainAfterOpen_range w doc svgFilename label first last fuel hlabel hrange hle hhi
        hcount' hint hfmt halloc (hfuel hcount')] at hmain
      have hfetch : fetchedIndices (Event.documentNewFromFile (locator w inFile) ::
          Event.getNPages :: pagesTrace w doc svgFilename
            (pageNumbers (effectiveFirst first) (effectiveLast doc.nPages last)) ++
          [Event.unrefDocument]) =
          (pageNumbers (effectiveFirst first) (effectiveLast doc.nPages last)).map
            (fun n => n - 1) := by
        simp [fetchedIndices, fetchedIndices_append, fetchedIndices_pagesTrace]
      refine ⟨⟨Event.documentNewFromFile (locator w inFile) :: Event.getNPages ::
          pagesTrace w doc svgFilename
            (pageNumbers (effectiveFirst first) (effectiveLast doc.nPages last)) ++
          [Event.unrefDocument], _⟩, hmain, ?_, ?_, ?_, ?_⟩
      · constructor
        · intro h
          exact absurd h (exit_finish_ne _ (by decide) (by decide))
        · intro h; exact absurd h hbad
      · intro h; exact absurd h hbad
      · intro _; exact ⟨hF1, hle, hhi⟩
      · intro i hi
        rw [hfetch, List.mem_map] at hi
        obtain ⟨n, hn, rfl⟩ := hi
        rw [mem_pageNumbers] at hn
        omega

/-- C2 at a three-page document with `--first 2 --last 5`: the run ends with
-7 and fetches nothing. -/
theorem invalid_range_aborts_iff_witness :
    ∃ run, main (demoWorld 3 0)
        (invocation ['p', 'd', 'f', '2', 's', 'v', 'g'] ['a', '.', 'p', 'd', 'f']
          ['p', '%', 'd', '.', 's', 'v', 'g'] none 2 5) 5 = some run ∧
      (run.outcome = Outcome.exit (-7) ↔
        (effectiveLast 3 5 > 3 ∨ effectiveFirst 2 > effectiveLast 3 5)) ∧
      ((effectiveLast 3 5 > 3 ∨ effectiveFirst 2 > effectiveLast 3 5) →
        fetchedIndices run.trace = [] ∧ labelLookups run.trace = [] ∧
          convertCalls run.trace = []) ∧
      (fetchedIndices run.trace ≠ [] →
        1 ≤ effectiveFirst 2 ∧ effectiveFirst 2 ≤ effectiveLast 3 5 ∧
          effectiveLast 3 5 ≤ 3) ∧
      (∀ i ∈ fetchedIndices run.trace, 0 ≤ i ∧ i < 3) :=
  invalid_range_aborts_iff (demoWorld 3 0) (demoDocument 3)
    ['p', 'd', 'f', '2', 's', 'v', 'g'] ['a', '.', 'p', 'd', 'f']
    ['p', '%', 'd', '.', 's', 'v', 'g'] none 2 5 5
    rfl (Or.inl rfl) (by decide) (by decide)
    (by intro n h1 h2
        have h1' : (2 : Int) ≤ n := h1
        have h2' : n ≤ 5 := h2
        interval_cases n <;> decide)
    (fun _ => rfl) (by decide)

/-- C3 as stated fails: with a three-page document and `--first 1 --last
20000000` the requested span exceeds 9,999,999 pages, yet no run ends with
-5; the run ends with the invalid-range code -7, because the bounds are
checked against the page count first. -/
theorem too_many_pages_unguarded_counterexample :
    effectiveLast (demoDocument 3).nPages 20000000 - effectiveFirst 1 + 1 > 9999999 ∧
    main (demoWorld 3 0)
        (invocation ['p', 'd', 'f', '2', 's', 'v', 'g'] ['a', '.', 'p', 'd', 'f']
          ['p', '%', 'd', '.', 's', 'v', 'g'] none 1 20000000) 0 =
      some ⟨[Event.documentNewFromFile
          ['f', 'i', 'l', 'e', ':', '/', '/', '/', 't', 'm', 'p', '/', 'a', '.', 'p', 'd', 'f'],
        Event.getNPages, Event.stderr "Invalid argument\n"], Outcome.exit (-7)⟩ ∧
    ¬ ∃ fuel run, main (demoWorld 3 0)
        (invocation ['p', 'd', 'f', '2', 's', 'v', 'g'] ['a', '.', 'p', 'd', 'f']
          ['p', '%', 'd', '.', 's', 'v', 'g'] none 1 20000000) fuel = some run ∧
      run.outcome = Outcome.exit (-5) := by
  refine ⟨by decide, by decide, ?_⟩
  rintro ⟨fuel, run, hrun, hout⟩
  have hmain := main_invocation (demoWorld 3 0) (demoDocument 3)
    ['p', 'd', 'f', '2', 's', 'v', 'g'] ['a', '.', 'p', 'd', 'f']
    ['p', '%', 'd', '.', 's', 'v', 'g'] none 1 20000000 fuel rfl
  rw [mainAfterOpen_invalid (demoWorld 3 0) (demoDocument 3) _ none 1 20000000 fuel
    (Or.inl rfl) (by decide) (by decide)] at hmain
  rw [hmain] at hrun
  simp only [Option.map_some', Option.some.injEq] at hrun
  rw [← hrun] at hout
  exact absurd hout (by decide)

/-- C3, amended. In range mode (label absent or `all`, the default case
apart), when `effectiveLast ≤ P` and the effective bounds span more than
9,999,999 pages, `main` returns -5 for every amount of fuel, having only
opened the document, asked for the page count and written the diagnostic: no
page is fetched or converted. -/
theorem too_many_pages_aborts (w : World) (doc : PopplerDocument)
    (prog inFile svgFilename : CString) (label : Option CString) (first last : Int)
    (fuel : Nat)
    (hopen : w.documentNewFromFile (locator w inFile) = some doc)
    (hlabel : label = none ∨ label = some ['a', 'l', 'l'])
    (hrange : ¬ (label = none ∧ first = 0 ∧ last = 0))
    (hint : doc.nPages ≤ INT_MAX)
    (hhi : effectiveLast doc.nPages last ≤ doc.nPages)
    (hcount : effectiveLast doc.nPages last - effectiveFirst first + 1 > 9999999) :
    ∃ run, main w (invocation prog inFile svgFilename label first last) fuel = some run ∧
      run.outcome = Outcome.exit (-5) ∧
      run.trace = [Event.documentNewFromFile (locator w inFile), Event.getNPages,
        Event.stderr "Too many pages (>9,999,999)\n"] ∧
      fetchedIndices run.trace = [] ∧ labelLookups run.trace = [] ∧
      convertCalls run.trace = [] := by
  have hmain := main_invocation w doc prog inFile svgFilename label first last fuel hopen
  rw [mainAfterOpen_tooMany w doc svgFilename label first last fuel hlabel hrange hhi hint
    hcount] at hmain
  exact ⟨_, hmain, rfl, rfl, rfl, rfl, rfl⟩

/-- C3, amended, at a document of 10,000,000 pages with label `all`. -/
theorem too_many_pages_aborts_witness :
    ∃ run, main (demoWorld 10000000 0)
        (invocation ['p', 'd', 'f', '2', 's', 'v', 'g'] ['a', '.', 'p', 'd', 'f']
          ['p', '%', 'd', '.', 's', 'v', 'g'] (some ['a', 'l', 'l']) 0 0) 0 = some run ∧
      run.outcome = Outcome.exit (-5) ∧
      run.trace = [Event.documentNewFromFile
          (locator (demoWorld 10000000 0) ['a', '.', 'p', 'd', 'f']), Event.getNPages,
        Event.stderr "Too many pages (>9,999,999)\n"] ∧
      fetchedIndices run.trace = [] ∧ labelLookups run.trace = [] ∧
      convertCalls run.trace = [] :=
  too_many_pages_aborts (demoWorld 10000000 0) (demoDocument 10000000)
    ['p', 'd', 'f', '2', 's', 'v', 'g'] ['a', '.', 'p', 'd', 'f']
    ['p', '%', 'd', '.', 's', 'v', 'g'] (some ['a', 'l', 'l']) 0 0 0
    rfl (Or.inr rfl) (by decide) (by decide) (by decide) (by decide)

/-- C4. Default selection.  For every opened document (in particular every
page count `P ≥ 1`), with no page label and `first = 0`, `last = 0`, `main`
returns for every amount of fuel; it fetches exactly one page, the one at
index 0, and converts it to the output path as given: no label lookup, no
page-count query, no range diagnostics; the exit code is 0 if that
conversion returns 0 and -4 otherwise. -/
theorem default_selection_converts_first_page (w : World) (doc : PopplerDocument)
    (prog inFile svgFilename : CString) (fuel : Nat)
    (hopen : w.documentNewFromFile (locator w inFile) = some doc) :
    ∃ run, main w (invocation prog inFile svgFilename none 0 0) fuel = some run ∧
      run.trace = Event.documentNewFromFile (locator w inFile) :: Event.getPage 0 ::
        (convertPage w (doc.getPage 0) svgFilename).1 ++ [Event.unrefDocument] ∧
      fetchedIndices run.trace = [0] ∧
      labelLookups run.trace = [] ∧
      convertCalls run.trace = [(doc.getPage 0, svgFilename)] ∧
      Event.getNPages ∉ run.trace ∧
      run.outcome =
        Outcome.exit (if (convertPage w (doc.getPage 0) svgFilename).2 = 0 then 0 else -4) := by
  have hmain := main_invocation w doc prog inFile svgFilename none 0 0 fuel hopen
  rw [mainAfterOpen_default] at hmain
  refine ⟨_, hmain, rfl, ?_, ?_, ?_, ?_, ?_⟩
  · cases h : doc.getPage 0 <;> simp [finish, convertPage, fetchedIndices]
  · cases h : doc.getPage 0 <;> simp [finish, convertPage, labelLookups]
  · cases h : doc.getPage 0 <;> simp [finish, convertPage, convertCalls]
  · cases h : doc.getPage 0 <;> simp [finish, convertPage]
  · cases h : doc.getPage 0 <;> simp [finish, convertPage]

/-- C4 at a three-page document and `single.svg`. -/
theorem default_selection_converts_first_page_witness :
    ∃ run, main (demoWorld 3 0)
        (invocation ['p', 'd', 'f', '2', 's', 'v', 'g'] ['a', '.', 'p', 'd', 'f']
          ['s', 'i', 'n', 'g', 'l', 'e', '.', 's', 'v', 'g'] none 0 0) 0 = some run ∧
      run.trace = Event.documentNewFromFile
          (locator (demoWorld 3 0) ['a', '.', 'p', 'd', 'f']) :: Event.getPage 0 ::
        (convertPage (demoWorld 3 0) ((demoDocument 3).getPage 0)
          ['s', 'i', 'n', 'g', 'l', 'e', '.', 's', 'v', 'g']).1 ++ [Event.unrefDocument] ∧
      fetchedIndices run.trace = [0] ∧
      labelLookups run.trace = [] ∧
      convertCalls run.trace =
        [((demoDocument 3).getPage 0, ['s', 'i', 'n', 'g', 'l', 'e', '.', 's', 'v', 'g'])] ∧
      Event.getNPages ∉ run.trace ∧
      run.outcome =
        Outcome.exit (if (convertPage (demoWorld 3 0) ((demoDocument 3).getPage 0)
          ['s', 'i', 'n', 'g', 'l', 'e', '.', 's', 'v', 'g']).2 = 0 then 0 else -4) :=
  default_selection_converts_first_page (demoWorld 3 0) (demoDocument 3)
    ['p', 'd', 'f', '2', 's', 'v', 'g'] ['a', '.', 'p', 'd', 'f']
    ['s', 'i', 'n', 'g', 'l', 'e', '.', 's', 'v', 'g'] 0 rfl

/-- C5. Label selection.  For every label other than `all` and every value
of `first` and `last`, `main` returns for every amount of fuel; it performs
exactly one page lookup, by label and not by index, and converts that page
to the output path as given; the run is the same as with `first = 0` and
`last = 0`, so the bounds affect neither the page converted nor the exit
code. -/
theorem label_selection_ignores_bounds (w : World) (doc : PopplerDocument)
    (prog inFile svgFilename l : CString) (first last : Int) (fuel : Nat)
    (hopen : w.documentNewFromFile (locator w inFile) = some doc)
    (hl : l ≠ ['a', 'l', 'l']) :
    ∃ run, main w (invocation prog inFile svgFilename (some l) first last) fuel = some run ∧
      run.trace = Event.documentNewFromFile (locator w inFile) :: Event.getPageByLabel l ::
        (convertPage w (doc.getPageByLabel l) svgFilename).1 ++ [Event.unrefDocument] ∧
      labelLookups run.trace = [l] ∧
      fetchedIndices run.trace = [] ∧
      convertCalls run.trace = [(doc.getPageByLabel l, svgFilename)] ∧
      run.outcome =
        Outcome.exit
          (if (convertPage w (doc.getPageByLabel l) svgFilename).2 = 0 then 0 else -4) ∧
      main w (invocation prog inFile svgFilename (some l) 0 0) fuel = some run := by
  have hmain := main_invocation w doc prog inFile svgFilename (some l) first last fuel hopen
  have hmain0 := main_invocation w doc prog inFile svgFilename (some l) 0 0 fuel hopen
  rw [mainAfterOpen_label w doc svgFilename l _ _ fuel hl] at hmain hmain0
  refine ⟨_, hmain, rfl, ?_, ?_, ?_, ?_, hmain0⟩
  · cases h : doc.getPageByLabel l <;> simp [finish, convertPage, labelLookups]
  · cases h : doc.getPageByLabel l <;> simp [finish, convertPage, fetchedIndices]
  · cases h : doc.getPageByLabel l <;> simp [finish, convertPage, convertCalls]
  · cases h : doc.getPageByLabel l <;> simp [finish, convertPage]

/-- C5 at a three-page document, label `ii`, `--first 3 --last 1`. -/
theorem label_selection_ignores_bounds_witness :
    ∃ run, main (demoWorld 3 0)
        (invocation ['p', 'd', 'f', '2', 's', 'v', 'g'] ['a', '.', 'p', 'd', 'f']
          ['o', '.', 's', 'v', 'g'] (some ['i', 'i']) 3 1) 0 = some run ∧
      run.trace = Event.documentNewFromFile
          (locator (demoWorld 3 0) ['a', '.', 'p', 'd', 'f']) ::
        Event.getPageByLabel ['i', 'i'] ::
        (convertPage (demoWorld 3 0) ((demoDocument 3).getPageByLabel ['i', 'i'])
          ['o', '.', 's', 'v', 'g']).1 ++ [Event.unrefDocument] ∧
      labelLookups run.trace = [['i', 'i']] ∧
      fetchedIndices run.trace = [] ∧
      convertCalls run.trace =
        [((demoDocument 3).getPageByLabel ['i', 'i'], ['o', '.', 's', 'v', 'g'])] ∧
      run.outcome =
        Outcome.exit
          (if (convertPage (demoWorld 3 0) ((demoDocument 3).getPageByLabel ['i', 'i'])
            ['o', '.', 's', 'v', 'g']).2 = 0 then 0 else -4) ∧
      main (demoWorld 3 0)
        (invocation ['p', 'd', 'f', '2', 's', 'v', 'g'] ['a', '.', 'p', 'd', 'f']
          ['o', '.', 's', 'v', 'g'] (some ['i', 'i']) 0 0) 0 = some run :=
  label_selection_ignores_bounds (demoWorld 3 0) (demoDocument 3)
    ['p', 'd', 'f', '2', 's', 'v', 'g'] ['a', '.', 'p', 'd', 'f']
    ['o', '.', 's', 'v', 'g'] ['i', 'i'] 3 1 0 rfl (by decide)

/-- C6. Range-mode error aggregation.  For every valid range and every
pattern of page lookups and conversion results, `main` returns; every page
number of `[effectiveFirst, effectiveLast]` is attempted, in order, whatever
the earlier results were; and the exit code is -4 exactly when the conversion
of at least one page of the range returned failure, and 0 exactly when none
did. -/
theorem range_mode_aggregates_failures (w : World) (doc : PopplerDocument)
    (prog inFile svgFilename : CString) (label : Option CString) (first last : Int)
    (fuel : Nat)
    (hopen : w.documentNewFromFile (locator w inFile) = some doc)
    (hlabel : label = none ∨ label = some ['a', 'l', 'l'])
    (hrange : ¬ (label = none ∧ first = 0 ∧ last = 0))
    (hle : effectiveFirst first ≤ effectiveLast doc.nPages last)
    (hhi : effectiveLast doc.nPages last ≤ doc.nPages)
    (hcount : effectiveLast doc.nPages last - effectiveFirst first + 1 ≤ 9999999)
    (hint : doc.nPages ≤ INT_MAX)
    (hfmt : ∀ n, effectiveFirst first ≤ n → n ≤ effectiveLast doc.nPages last →
      ((w.formatInt svgFilename n).length : Int) ≤ INT_MAX)
    (halloc : ∀ size, w.allocOk size = true)
    (hfuel : (effectiveLast doc.nPages last - effectiveFirst first + 1).toNat < fuel) :
    ∃ run, main w (invocation prog inFile svgFilename label first last) fuel = some run ∧
      convertCalls run.trace =
        (pageNumbers (effectiveFirst first) (effectiveLast doc.nPages last)).map
          (fun n => (doc.getPage (n - 1), w.formatInt svgFilename n)) ∧
      (run.outcome = Outcome.exit (-4) ↔
        ∃ n, effectiveFirst first ≤ n ∧ n ≤ effectiveLast doc.nPages last ∧
          pageResult w doc svgFilename n ≠ 0) ∧
      (run.outcome = Outcome.exit 0 ↔
        ∀ n, effectiveFirst first ≤ n → n ≤ effectiveLast doc.nPages last →
          pageResult w doc svgFilename n = 0) := by
  have hmain := main_invocation w doc prog inFile svgFilename label first last fuel hopen
  rw [mainAfterOpen_range w doc svgFilename label first last fuel hlabel hrange hle hhi hcount
    hint hfmt halloc hfuel] at hmain
  have hcalls : convertCalls (Event.documentNewFromFile (locator w inFile) ::
      Event.getNPages :: pagesTrace w doc svgFilename
        (pageNumbers (effectiveFirst first) (effectiveLast doc.nPages last)) ++
      [Event.unrefDocument]) =
      (pageNumbers (effectiveFirst first) (effectiveLast doc.nPages last)).map
        (fun n => (doc.getPage (n - 1), w.formatInt svgFilename n)) := by
    simp [convertCalls, convertCalls_append, convertCalls_pagesTrace]
  have hany := anyFailed_eq_true w doc svgFilename (effectiveFirst first)
    (effectiveLast doc.nPages last)
  by_cases hfail : anyFailed w doc svgFilename
      (pageNumbers (effectiveFirst first) (effectiveLast doc.nPages last)) = true
  · simp only [hfail, if_true] at hmain
    refine ⟨⟨_, Outcome.exit (-4)⟩, hmain, hcalls, ?_, ?_⟩
    · exact ⟨fun _ => hany.mp hfail, fun _ => rfl⟩
    · constructor
      · intro h; exact absurd h (show Outcome.exit (-4) ≠ Outcome.exit 0 by decide)
      · intro h
        obtain ⟨n, h1, h2, hres⟩ := hany.mp hfail
        exact absurd (h n h1 h2) hres
  · simp only [hfail] at hmain
    refine ⟨⟨_, Outcome.exit 0⟩, hmain, hcalls, ?_, ?_⟩
    · constructor
      · intro h; exact absurd h (show Outcome.exit 0 ≠ Outcome.exit (-4) by decide)
      · intro h; exact absurd (hany.mpr h) hfail
    · refine ⟨fun _ n h1 h2 => ?_, fun _ => rfl⟩
      by_contra hres
      exact hfail (hany.mpr ⟨n, h1, h2, hres⟩)

/-- C6 at a three-page document whose second page cannot be loaded,
converted with `--first 1 --last 3`. -/
theorem range_mode_aggregates_failures_witness :
    ∃ run, main (worldOf damagedDocument 0)
        (invocation ['p', 'd', 'f', '2', 's', 'v', 'g'] ['a', '.', 'p', 'd', 'f']
          ['p', '%', 'd', '.', 's', 'v', 'g'] none 1 3) 4 = some run ∧
      convertCalls run.trace = (pageNumbers 1 3).map
        (fun n => (damagedDocument.getPage (n - 1),
          (worldOf damagedDocument 0).formatInt ['p', '%', 'd', '.', 's', 'v', 'g'] n)) ∧
      (run.outcome = Outcome.exit (-4) ↔
        ∃ n, 1 ≤ n ∧ n ≤ 3 ∧
          pageResult (worldOf damagedDocument 0) damagedDocument
            ['p', '%', 'd', '.', 's', 'v', 'g'] n ≠ 0) ∧
      (run.outcome = Outcome.exit 0 ↔
        ∀ n, 1 ≤ n → n ≤ 3 →
          pageResult (worldOf damagedDocument 0) damagedDocument
            ['p', '%', 'd', '.', 's', 'v', 'g'] n = 0) :=
  range_mode_aggregates_failures (worldOf damagedDocument 0) damagedDocument
    ['p', 'd', 'f', '2', 's', 'v', 'g'] ['a', '.', 'p', 'd', 'f']
    ['p', '%', 'd', '.', 's', 'v', 'g'] none 1 3 4
    rfl (Or.inl rfl) (by decide) (by decide) (by decide) (by decide) (by decide)
    (by intro n h1 h2
        have h1' : (1 : Int) ≤ n := h1
        have h2' : n ≤ 3 := h2
        interval_cases n <;> decide)
    (fun _ => rfl) (by decide)

/-- C7. Missing page.  `convertPage` called with a null page returns
failure and creates neither an output surface nor a drawing context; so a
single-page run (the default case, or a label other than `all`) whose lookup
finds no page returns for every amount of fuel, creates no output surface or
drawing context, and exits with the conversion-failure code -4. -/
theorem missing_page_fails_without_output (w : World) (doc : PopplerDocument)
    (prog inFile svgFilename : CString) (label : Option CString) (first last : Int)
    (fuel : Nat)
    (hopen : w.documentNewFromFile (locator w inFile) = some doc)
    (hsingle : (label = none ∧ first = 0 ∧ last = 0) ∨
      (∃ l, label = some l ∧ l ≠ ['a', 'l', 'l']))
    (hmissing : (match label with
      | none => doc.getPage 0
      | some l => doc.getPageByLabel l) = none) :
    (convertPage w none svgFilename).2 = -1 ∧
    (∀ e ∈ (convertPage w none svgFilename).1, createsOutput e = false) ∧
    ∃ run, main w (invocation prog inFile svgFilename label first last) fuel = some run ∧
      convertCalls run.trace = [(none, svgFilename)] ∧
      (∀ e ∈ run.trace, createsOutput e = false) ∧
      run.outcome = Outcome.exit (-4) := by
  refine ⟨rfl, createsOutput_convertPage_none w svgFilename, ?_⟩
  have hmain := main_invocation w doc prog inFile svgFilename label first last fuel hopen
  rcases hsingle with ⟨rfl, rfl, rfl⟩ | ⟨l, rfl, hl⟩
  · simp only at hmissing
    rw [mainAfterOpen_default, hmissing] at hmain
    refine ⟨_, hmain, rfl, ?_, rfl⟩
    intro e he
    simp only [finish, convertPage, List.cons_append, List.nil_append, List.mem_cons,
      List.mem_singleton, List.not_mem_nil, or_false] at he
    rcases he with rfl | rfl | rfl | rfl | rfl <;> rfl
  · simp only at hmissing
    rw [mainAfterOpen_label w doc svgFilename l _ _ fuel hl, hmissing] at hmain
    refine ⟨_, hmain, rfl, ?_, rfl⟩
    intro e he
    simp only [finish, convertPage, List.cons_append, List.nil_append, List.mem_cons,
      List.mem_singleton, List.not_mem_nil, or_false] at he
    rcases he with rfl | rfl | rfl | rfl | rfl <;> rfl

/-- C7 at a three-page document and the label `x`, which no page carries. -/
theorem missing_page_fails_without_output_witness :
    (convertPage (demoWorld 3 0) none ['o', '.', 's', 'v', 'g']).2 = -1 ∧
    (∀ e ∈ (convertPage (demoWorld 3 0) none ['o', '.', 's', 'v', 'g']).1,
      createsOutput e = false) ∧
    ∃ run, main (demoWorld 3 0)
        (invocation ['p', 'd', 'f', '2', 's', 'v', 'g'] ['a', '.', 'p', 'd', 'f']
          ['o', '.', 's', 'v', 'g'] (some ['x']) 0 0) 0 = some run ∧
      convertCalls run.trace = [(none, ['o', '.', 's', 'v', 'g'])] ∧
      (∀ e ∈ run.trace, createsOutput e = false) ∧
      run.outcome = Outcome.exit (-4) :=
  missing_page_fails_without_output (demoWorld 3 0) (demoDocument 3)
    ['p', 'd', 'f', '2', 's', 'v', 'g'] ['a', '.', 'p', 'd', 'f']
    ['o', '.', 's', 'v', 'g'] (some ['x']) 0 0 0 rfl
    (Or.inr ⟨['x'], rfl, by decide⟩) (by decide)

/-- C8. Filename formatting never truncates and always terminates.  For every
output template and page number whose complete expansion has a length that
`snprintf` can return (at most `INT_MAX`), and with `realloc` succeeding, the
probe-and-grow loop started with the initial capacity `strlen (template) + 16`
ends within two rounds, hence after at most one reallocation, with the
complete expansion in the buffer and its length strictly below the capacity;
the same holds from any buffer `b` left by an earlier page.  When the world's
printf follows `printfInt` and the template has no `%`, the buffer holds the
template unchanged. -/
theorem filename_formatting_never_truncates (w : World) (svgFilename : CString)
    (pageNo : Int) (fuel : Nat) (b : FilenameBuffer)
    (hfmt : ((w.formatInt svgFilename pageNo).length : Int) ≤ INT_MAX)
    (halloc : w.allocOk ((w.formatInt svgFilename pageNo).length + 1) = true)
    (hfuel : 2 ≤ fuel) :
    (∃ r, formatLoop w svgFilename pageNo fuel
          ⟨toSizeT ((svgFilename.length : Int) + 16), [], 0⟩ = Step.ok r ∧
        r.reallocs ≤ 1 ∧
        r.svgFilenameBuffer = w.formatInt svgFilename pageNo ∧
        r.svgFilenameBuffer.length < r.svgFilenameBufLen ∧
        ('%' ∉ svgFilename →
          (∀ s, printfInt pageNo false svgFilename = some s →
            w.formatInt svgFilename pageNo = s) →
          r.svgFilenameBuffer = svgFilename)) ∧
    (∃ r, formatLoop w svgFilename pageNo fuel b = Step.ok r ∧
        r.reallocs ≤ b.reallocs + 1 ∧
        r.svgFilenameBuffer = w.formatInt svgFilename pageNo ∧
        r.svgFilenameBuffer.length < r.svgFilenameBufLen ∧
        ('%' ∉ svgFilename →
          (∀ s, printfInt pageNo false svgFilename = some s →
            w.formatInt svgFilename pageNo = s) →
          r.svgFilenameBuffer = svgFilename)) := by
  constructor
  · obtain ⟨r, hr, hbuf, hlen, -, hre⟩ := formatLoop_ok w svgFilename pageNo hfmt halloc fuel
      hfuel ⟨toSizeT ((svgFilename.length : Int) + 16), [], 0⟩
    refine ⟨r, hr, by simpa using hre, hbuf, by rw [hbuf]; exact hlen, ?_⟩
    intro hplain hconf
    rw [hbuf]
    exact hconf _ (printfInt_plain pageNo false svgFilename hplain)
  · obtain ⟨r, hr, hbuf, hlen, -, hre⟩ := formatLoop_ok w svgFilename pageNo hfmt halloc fuel
      hfuel b
    refine ⟨r, hr, hre, hbuf, by rw [hbuf]; exact hlen, ?_⟩
    intro hplain hconf
    rw [hbuf]
    exact hconf _ (printfInt_plain pageNo false svgFilename hplain)

/-- C8 for the template `p%d.svg` and page 1234567, and for the template
`out.svg` without placeholder, each from the initial buffer and from a buffer
of capacity 3. -/
theorem filename_formatting_never_truncates_witness :
    ((∃ r, formatLoop (demoWorld 3 0) ['p', '%', 'd', '.', 's', 'v', 'g'] 1234567 2
          ⟨toSizeT (((['p', '%', 'd', '.', 's', 'v', 'g'] : CString).length : Int) + 16),
            [], 0⟩ = Step.ok r ∧
        r.reallocs ≤ 1 ∧
        r.svgFilenameBuffer =
          (demoWorld 3 0).formatInt ['p', '%', 'd', '.', 's', 'v', 'g'] 1234567 ∧
        r.svgFilenameBuffer.length < r.svgFilenameBufLen ∧
        ('%' ∉ (['p', '%', 'd', '.', 's', 'v', 'g'] : CString) →
          (∀ s, printfInt 1234567 false ['p', '%', 'd', '.', 's', 'v', 'g'] = some s →
            (demoWorld 3 0).formatInt ['p', '%', 'd', '.', 's', 'v', 'g'] 1234567 = s) →
          r.svgFilenameBuffer = ['p', '%', 'd', '.', 's', 'v', 'g'])) ∧
      (∃ r, formatLoop (demoWorld 3 0) ['p', '%', 'd', '.', 's', 'v', 'g'] 1234567 2
          ⟨3, [], 0⟩ = Step.ok r ∧
        r.reallocs ≤ (⟨3, [], 0⟩ : FilenameBuffer).reallocs + 1 ∧
        r.svgFilenameBuffer =
          (demoWorld 3 0).formatInt ['p', '%', 'd', '.', 's', 'v', 'g'] 1234567 ∧
        r.svgFilenameBuffer.length < r.svgFilenameBufLen ∧
        ('%' ∉ (['p', '%', 'd', '.', 's', 'v', 'g'] : CString) →
          (∀ s, printfInt 1234567 false ['p', '%', 'd', '.', 's', 'v', 'g'] = some s →
            (demoWorld 3 0).formatInt ['p', '%', 'd', '.', 's', 'v', 'g'] 1234567 = s) →
          r.svgFilenameBuffer = ['p', '%', 'd', '.', 's', 'v', 'g']))) ∧
    ((∃ r, formatLoop (demoWorld 3 0) ['o', 'u', 't', '.', 's', 'v', 'g'] 2 2
          ⟨toSizeT (((['o', 'u', 't', '.', 's', 'v', 'g'] : CString).length : Int) + 16),
            [], 0⟩ = Step.ok r ∧
        r.reallocs ≤ 1 ∧
        r.svgFilenameBuffer = (demoWorld 3 0).formatInt ['o', 'u', 't', '.', 's', 'v', 'g'] 2 ∧
        r.svgFilenameBuffer.length < r.svgFilenameBufLen ∧
        ('%' ∉ (['o', 'u', 't', '.', 's', 'v', 'g'] : CString) →
          (∀ s, printfInt 2 false ['o', 'u', 't', '.', 's', 'v', 'g'] = some s →
            (demoWorld 3 0).formatInt ['o', 'u', 't', '.', 's', 'v', 'g'] 2 = s) →
          r.svgFilenameBuffer = ['o', 'u', 't', '.', 's', 'v', 'g'])) ∧
      (∃ r, formatLoop (demoWorld 3 0) ['o', 'u', 't', '.', 's', 'v', 'g'] 2 2
          ⟨3, [], 0⟩ = Step.ok r ∧
        r.reallocs ≤ (⟨3, [], 0⟩ : FilenameBuffer).reallocs + 1 ∧
        r.svgFilenameBuffer = (demoWorld 3 0).formatInt ['o', 'u', 't', '.', 's', 'v', 'g'] 2 ∧
        r.svgFilenameBuffer.length < r.svgFilenameBufLen ∧
        ('%' ∉ (['o', 'u', 't', '.', 's', 'v', 'g'] : CString) →
          (∀ s, printfInt 2 false ['o', 'u', 't', '.', 's', 'v', 'g'] = some s →
            (demoWorld 3 0).formatInt ['o', 'u', 't', '.', 's', 'v', 'g'] 2 = s) →
          r.svgFilenameBuffer = ['o', 'u', 't', '.', 's', 'v', 'g']))) :=
  ⟨filename_formatting_never_truncates (demoWorld 3 0) ['p', '%', 'd', '.', 's', 'v', 'g']
      1234567 2 ⟨3, [], 0⟩ (by decide) rfl (by decide),
    filename_formatting_never_truncates (demoWorld 3 0) ['o', 'u', 't', '.', 's', 'v', 'g']
      2 2 ⟨3, [], 0⟩ (by decide) rfl (by decide)⟩

/-- C9 as stated fails: in a world where `cairo_svg_surface_create` and
`cairo_create` report the error status 11, `convertPage` on a non-null page
returns 0 all the same, and the default run of `main` exits with 0. -/
theorem convertPage_engine_error_counterexample :
    ((demoWorld 3 11).svgSurfaceCreate ['o', '.', 's', 'v', 'g']
        ((demoWorld 3 11).pageGetSize ⟨0⟩).1 ((demoWorld 3 11).pageGetSize ⟨0⟩).2).status ≠ 0 ∧
    ((demoWorld 3 11).cairoCreate
      ((demoWorld 3 11).svgSurfaceCreate ['o', '.', 's', 'v', 'g']
        ((demoWorld 3 11).pageGetSize ⟨0⟩).1
        ((demoWorld 3 11).pageGetSize ⟨0⟩).2)).status ≠ 0 ∧
    (convertPage (demoWorld 3 11) (some ⟨0⟩) ['o', '.', 's', 'v', 'g']).2 = 0 ∧
    ∃ run, main (demoWorld 3 11)
        (invocation ['p', 'd', 'f', '2', 's', 'v', 'g'] ['a', '.', 'p', 'd', 'f']
          ['o', '.', 's', 'v', 'g'] none 0 0) 0 = some run ∧
      run.outcome = Outcome.exit 0 :=
  ⟨by decide, by decide, rfl, _, rfl, rfl⟩

/-- C9, amended. `convertPage` returns failure exactly when the page is
null: for every non-null page and output path it returns 0 in every world,
whatever status the output surface, the drawing context or the rendering
reports, and its return value is the same in any two worlds. -/
theorem convertPage_fails_only_on_null_page (w : World) (page : Option PopplerPage)
    (svgFilename : CString) :
    ((convertPage w page svgFilename).2 ≠ 0 ↔ page = none) ∧
    (∀ p : PopplerPage, (convertPage w (some p) svgFilename).2 = 0) ∧
    (∀ w' : World, (convertPage w' page svgFilename).2 = (convertPage w page svgFilename).2) := by
  refine ⟨?_, fun _ => rfl, fun w' => ?_⟩
  · cases page <;> simp [convertPage]
  · cases page <;> rfl

/-- C10 on the code: a run that opened its document and aborts with the
invalid-range code -7 (three pages, `--first 2 --last 5`) or with the
too-many-pages code -5 (10,000,000 pages, label `all`) ends without the call
that releases the document, whereas the default run on the same three-page
document ends with that call. -/
theorem fatal_range_errors_skip_document_release :
    main (demoWorld 3 0)
        (invocation ['p', 'd', 'f', '2', 's', 'v', 'g'] ['a', '.', 'p', 'd', 'f']
          ['p', '%', 'd', '.', 's', 'v', 'g'] none 2 5) 0 =
      some ⟨[Event.documentNewFromFile
          ['f', 'i', 'l', 'e', ':', '/', '/', '/', 't', 'm', 'p', '/', 'a', '.', 'p', 'd', 'f'],
        Event.getNPages, Event.stderr "Invalid argument\n"], Outcome.exit (-7)⟩ ∧
    main (demoWorld 10000000 0)
        (invocation ['p', 'd', 'f', '2', 's', 'v', 'g'] ['a', '.', 'p', 'd', 'f']
          ['p', '%', 'd', '.', 's', 'v', 'g'] (some ['a', 'l', 'l']) 0 0) 0 =
      some ⟨[Event.documentNewFromFile
          ['f', 'i', 'l', 'e', ':', '/', '/', '/', 't', 'm', 'p', '/', 'a', '.', 'p', 'd', 'f'],
        Event.getNPages, Event.stderr "Too many pages (>9,999,999)\n"], Outcome.exit (-5)⟩ ∧
    (∃ run, main (demoWorld 3 0)
        (invocation ['p', 'd', 'f', '2', 's', 'v', 'g'] ['a', '.', 'p', 'd', 'f']
          ['p', '%', 'd', '.', 's', 'v', 'g'] none 0 0) 0 = some run ∧
      run.trace.getLast? = some Event.unrefDocument) := by
  refine ⟨by decide, by decide, _, rfl, by decide⟩

end Pdf2svg
